import Mathlib

/-!
Verification of the beam-profile core of the Optical-beams-MEEP repository
(file `Laguerre_Gauss_3d/beamprofile.py`): the complex double integral that
evaluates a Laguerre-Gauss / Gaussian beam field amplitude at a point via a
plane-wave spectral decomposition over a spherical angular domain.

The external adaptive 2-D quadrature primitive (scipy's `dblquad`) is an
external collaborator with a fixed interface; it is modelled as a parameter
`dq : QuadPrim` supplied to the functions that use it, following the source's
call convention `dblquad(func, a, b, gfun, hfun, args)`: the integrand `func`
takes the inner variable first, the outer variable ranges over `[a, b]` and
the inner variable over `[gfun, hfun]`.  A raised Python exception is modelled
as an `Except.error` carrying the exception's type name and message, so the
`try/except` + `sys.exit()` in `PsiSpherical.__call__` (print the diagnostic,
return no value, terminate) is modelled as propagation of that error value:
no result value is produced on that path.
-/

namespace Beamprofile

/-- Model of a raised Python exception: its type name and its message, the
two pieces of information `PsiSpherical.__call__` reports before exiting.
This is the data the spec's `IntegrationError` carries. -/
structure PyException where
  name : String
  msg : String

/-- Interface of the external 2-D quadrature primitive (scipy's `dblquad`,
already specialized to the extra-argument tuple): it receives a scalar
integrand (inner variable first), the outer bounds `a b`, the inner bounds
`gfun hfun`, and returns the integral value and the estimated absolute error,
or raises. -/
abbrev QuadPrim : Type :=
  (ℝ → ℝ → ℝ) → ℝ → ℝ → ℝ → ℝ → Except PyException (ℝ × ℝ)

/-- Embedding of `real_func(x, y, func, ry, rz)`: the real part of `func`. -/
def real_func (x y : ℝ) (func : ℝ → ℝ → ℝ → ℝ → ℂ) (ry rz : ℝ) : ℝ :=
  (func x y ry rz).re

/-- Embedding of `imag_func(x, y, func, ry, rz)`: the imaginary part of
`func`. -/
def imag_func (x y : ℝ) (func : ℝ → ℝ → ℝ → ℝ → ℂ) (ry rz : ℝ) : ℝ :=
  (func x y ry rz).im

/-- Embedding of `complex_dblquad(func, a, b, gfun, hfun, ry, rz)`: the real
and the imaginary part of `func` are integrated by two separate invocations
of the quadrature primitive, and the complex sum `real + 1j*imag` is returned
together with the two error estimates.  An exception raised by either
invocation propagates (the second invocation does not happen if the first
raises). -/
def complex_dblquad (dq : QuadPrim) (func : ℝ → ℝ → ℝ → ℝ → ℂ)
    (a b gfun hfun ry rz : ℝ) : Except PyException (ℂ × ℝ × ℝ) :=
  match dq (fun x y => real_func x y func ry rz) a b gfun hfun with
  | Except.error e => Except.error e
  | Except.ok (real, real_tol) =>
    match dq (fun x y => imag_func x y func ry rz) a b gfun hfun with
    | Except.error e => Except.error e
    | Except.ok (imag, imag_tol) =>
      Except.ok ((real : ℂ) + Complex.I * (imag : ℂ), real_tol, imag_tol)

/-- Instrumented version of `complex_dblquad` that also counts how many times
the underlying quadrature primitive is invoked.  Same control flow as
`complex_dblquad`. -/
def complex_dblquadCount (dq : QuadPrim) (func : ℝ → ℝ → ℝ → ℝ → ℂ)
    (a b gfun hfun ry rz : ℝ) : Except PyException (ℂ × ℝ × ℝ) × ℕ :=
  match dq (fun x y => real_func x y func ry rz) a b gfun hfun with
  | Except.error e => (Except.error e, 1)
  | Except.ok (real, real_tol) =>
    match dq (fun x y => imag_func x y func ry rz) a b gfun hfun with
    | Except.error e => (Except.error e, 2)
    | Except.ok (imag, imag_tol) =>
      (Except.ok ((real : ℂ) + Complex.I * (imag : ℂ), real_tol, imag_tol), 2)

/-- The parameter record `params = dict(W_y=..., k=..., m=...)`. -/
structure Params where
  W_y : ℝ
  k : ℝ
  m : ℤ

/-- Embedding of `f_Gauss_spherical(sin_theta, theta, phi, params)`:
the 2d-Gaussian spectrum amplitude `exp(-(k*W_y*sin_theta/2)**2)`, a real
number (Python's `math.exp`). -/
noncomputable def f_Gauss_spherical (sin_theta theta phi : ℝ) (params : Params) : ℝ :=
  Real.exp (-(params.k * params.W_y * sin_theta / 2) ^ 2)

/-- Embedding of `f_Laguerre_Gauss_spherical(sin_theta, theta, phi, params)`:
`f_Gauss_spherical(...) * theta**abs(m) * cexp(1j*m*phi)`.  The first two
factors are real (float) and the result is complex. -/
noncomputable def f_Laguerre_Gauss_spherical (sin_theta theta phi : ℝ) (params : Params) : ℂ :=
  ((f_Gauss_spherical sin_theta theta phi params * theta ^ params.m.natAbs : ℝ) : ℂ) *
    Complex.exp (Complex.I * (params.m : ℂ) * (phi : ℂ))

/-- The evaluation point (meep's `Vector3`). -/
structure Vector3 where
  x : ℝ
  y : ℝ
  z : ℝ

/-- State of a `PsiSpherical` object: the fields set by `__init__`. -/
structure PsiSpherical where
  x : ℝ
  params : Params
  k : ℝ
  m : ℤ
  f : ℝ → ℝ → ℝ → Params → ℂ

/-- Embedding of `PsiSpherical.__init__(self, x, params)`: stores `x` and
`params`, caches `k` and `m`, and selects the spectrum model once —
`f_Gauss_spherical` when `m == 0`, `f_Laguerre_Gauss_spherical` otherwise.
The real-valued Gaussian is coerced into the complex-valued field type, as
Python's numeric tower does implicitly. -/
noncomputable def PsiSpherical.init (x : ℝ) (params : Params) : PsiSpherical :=
  { x := x
    params := params
    k := params.k
    m := params.m
    f := if params.m = 0 then
        (fun sin_theta theta phi p => ((f_Gauss_spherical sin_theta theta phi p : ℝ) : ℂ))
      else
        f_Laguerre_Gauss_spherical }

/-- Embedding of `PsiSpherical.phase(self, theta, phi, x, y, z)`:
`k*(sin_theta*(y*sin_phi - z*cos_phi) + cos_theta*x)`, reading only `self.k`
from the object state. -/
noncomputable def PsiSpherical.phase (s : PsiSpherical) (theta phi x y z : ℝ) : ℝ :=
  s.k * (Real.sin theta * (y * Real.sin phi - z * Real.cos phi) + Real.cos theta * x)

/-- Embedding of `PsiSpherical.integrand(self, theta, phi, ry, rz)`:
`sin(theta) * cos(theta) * self.f(sin(theta), theta, phi, self.params) *
cexp(1j*self.phase(theta, phi, self.x, ry, rz))`. -/
noncomputable def PsiSpherical.integrand (s : PsiSpherical) (theta phi ry rz : ℝ) : ℂ :=
  ((Real.sin theta : ℂ)) * ((Real.cos theta : ℂ)) *
    s.f (Real.sin theta) theta phi s.params *
    Complex.exp (Complex.I * ((s.phase theta phi s.x ry rz : ℝ) : ℂ))

/-- Embedding of `PsiSpherical.__call__(self, r)`: runs `complex_dblquad` on
`self.integrand` with outer bounds `0, 2*pi`, inner bounds `0, pi/2` and the
point's `r.y, r.z`; on success returns `self.k**2 * result` (the error
estimates are discarded); on an exception it reports the exception and
terminates without producing a value, modelled as `Except.error`. -/
noncomputable def PsiSpherical.call (s : PsiSpherical) (dq : QuadPrim) (r : Vector3) :
    Except PyException ℂ :=
  match complex_dblquad dq s.integrand 0 (2 * Real.pi) 0 (Real.pi / 2) r.y r.z with
  | Except.error e => Except.error e
  | Except.ok (result, _real_tol, _imag_tol) => Except.ok (((s.k : ℂ)) ^ 2 * result)

/-- The method call viewed together with the object state after the call:
the body of `__call__` (and of the helpers it uses) never assigns to `self`,
so the state after the call is the state before it. -/
noncomputable def PsiSpherical.callS (s : PsiSpherical) (dq : QuadPrim) (r : Vector3) :
    (Except PyException ℂ) × PsiSpherical :=
  (s.call dq r, s)

/-- Instrumented version of `PsiSpherical.call` that also reports how many
times the underlying quadrature primitive was invoked during the amplitude
evaluation.  Same control flow as `PsiSpherical.call`. -/
noncomputable def PsiSpherical.callCount (s : PsiSpherical) (dq : QuadPrim) (r : Vector3) :
    Except PyException ℂ × ℕ :=
  match complex_dblquadCount dq s.integrand 0 (2 * Real.pi) 0 (Real.pi / 2) r.y r.z with
  | (Except.error e, n) => (Except.error e, n)
  | (Except.ok (result, _real_tol, _imag_tol), n) => (Except.ok (((s.k : ℂ)) ^ 2 * result), n)

/-- A concrete parameter set, used by witnesses: the values of the `main()`
example in the source. -/
noncomputable def exampleParams : Params :=
  { W_y := 0.25464790894703254, k := 31.41592653589793, m := 2 }

/-- A concrete quadrature primitive that always returns value `0` with error
estimate `0`; used by witnesses to instantiate the quadrature interface. -/
noncomputable def dqZero : QuadPrim :=
  fun _func _a _b _gfun _hfun => Except.ok (0, 0)

/-- A concrete quadrature primitive that always raises; used by witnesses for
the failure path. -/
def dqFail : QuadPrim :=
  fun _func _a _b _gfun _hfun =>
    Except.error { name := "ValueError", msg := "quadrature failed" }

/-- C6: for every `sin_theta`, `theta`, `phi` and parameters, the Gaussian
spectral amplitude equals `exp(-(k*W_y*sin_theta/2)^2)`, is real-valued (its
imaginary part under the coercion into ℂ is zero), and depends on its inputs
only through `sin_theta` and the parameters: for a fixed `sin_theta` it is the
same for every `theta` and every `phi`. -/
theorem f_Gauss_spherical_spec (sin_theta theta phi theta' phi' : ℝ) (p : Params) :
    f_Gauss_spherical sin_theta theta phi p =
      Real.exp (-(p.k * p.W_y * sin_theta / 2) ^ 2) ∧
    ((f_Gauss_spherical sin_theta theta phi p : ℝ) : ℂ).im = 0 ∧
    f_Gauss_spherical sin_theta theta' phi' p = f_Gauss_spherical sin_theta theta phi p :=
  ⟨rfl, Complex.ofReal_im _, rfl⟩

/-- C4: for every `sin_theta`, `theta`, `phi` and parameters, the
Laguerre-Gauss spectral amplitude equals the Gaussian amplitude
`exp(-(k*W_y*sin_theta/2)^2)` multiplied by `theta^|m|` and by
`exp(i*m*phi)`. -/
theorem f_Laguerre_Gauss_spherical_spec (sin_theta theta phi : ℝ) (p : Params) :
    f_Laguerre_Gauss_spherical sin_theta theta phi p =
      ((Real.exp (-(p.k * p.W_y * sin_theta / 2) ^ 2) : ℝ) : ℂ) *
        ((theta : ℝ) : ℂ) ^ p.m.natAbs *
        Complex.exp (Complex.I * (p.m : ℂ) * (phi : ℂ)) := by
  unfold f_Laguerre_Gauss_spherical f_Gauss_spherical
  push_cast
  ring

/-- C5: for every `sin_theta`, `theta`, `phi` and every parameter set whose
order is `m = 0`, the Laguerre-Gauss spectral amplitude equals the Gaussian
spectral amplitude exactly. -/
theorem f_Laguerre_Gauss_eq_Gauss_of_order_zero (sin_theta theta phi : ℝ) (p : Params)
    (h : p.m = 0) :
    f_Laguerre_Gauss_spherical sin_theta theta phi p =
      ((f_Gauss_spherical sin_theta theta phi p : ℝ) : ℂ) := by
  simp [f_Laguerre_Gauss_spherical, h]

/-- Witness for C5 at concrete inputs. -/
theorem f_Laguerre_Gauss_eq_Gauss_of_order_zero_witness :
    (Params.mk 1 2 0).m = 0 ∧
    f_Laguerre_Gauss_spherical 0 1 1 (Params.mk 1 2 0) =
      ((f_Gauss_spherical 0 1 1 (Params.mk 1 2 0) : ℝ) : ℂ) :=
  ⟨rfl, f_Laguerre_Gauss_eq_Gauss_of_order_zero 0 1 1 (Params.mk 1 2 0) rfl⟩

/-- C3: for every `theta`, `phi`, `x`, `y`, `z`, the phase function returns
exactly `k*(sin_theta*(y*sin_phi - z*cos_phi) + cos_theta*x)` (a real number
by its type), and it depends on the object state only through `k`: any other
object with the same `k` yields the same phase. -/
theorem phase_spec (s s' : PsiSpherical) (h : s'.k = s.k) (theta phi x y z : ℝ) :
    s.phase theta phi x y z =
      s.k * (Real.sin theta * (y * Real.sin phi - z * Real.cos phi) +
        Real.cos theta * x) ∧
    s'.phase theta phi x y z = s.phase theta phi x y z := by
  constructor
  · rfl
  · unfold PsiSpherical.phase
    rw [h]

/-- Witness for C3 at concrete inputs: two objects sharing `k = 3` but
differing in every other field. -/
theorem phase_spec_witness :
    (PsiSpherical.mk 5 (Params.mk 1 3 1) 3 1 f_Laguerre_Gauss_spherical).k =
      (PsiSpherical.mk 0 (Params.mk 2 3 0) 3 0 f_Laguerre_Gauss_spherical).k ∧
    ((PsiSpherical.mk 0 (Params.mk 2 3 0) 3 0 f_Laguerre_Gauss_spherical).phase 1 2 3 4 5 =
      (PsiSpherical.mk 0 (Params.mk 2 3 0) 3 0 f_Laguerre_Gauss_spherical).k *
        (Real.sin 1 * (4 * Real.sin 2 - 5 * Real.cos 2) + Real.cos 1 * 3) ∧
    (PsiSpherical.mk 5 (Params.mk 1 3 1) 3 1 f_Laguerre_Gauss_spherical).phase 1 2 3 4 5 =
      (PsiSpherical.mk 0 (Params.mk 2 3 0) 3 0 f_Laguerre_Gauss_spherical).phase 1 2 3 4 5) :=
  ⟨rfl, phase_spec
    (PsiSpherical.mk 0 (Params.mk 2 3 0) 3 0 f_Laguerre_Gauss_spherical)
    (PsiSpherical.mk 5 (Params.mk 1 3 1) 3 1 f_Laguerre_Gauss_spherical)
    rfl 1 2 3 4 5⟩

/-- C7: the complex integrator integrates the real part and the imaginary
part of the integrand as two independent scalar quadratures; when both
succeed it returns the complex sum `real + i*imag` together with the two
estimated absolute errors, the instrumented count shows exactly two
invocations of the quadrature primitive, and the amplitude evaluation built
on it likewise performs exactly two invocations. -/
theorem complex_dblquad_spec (s : PsiSpherical) (dq : QuadPrim) (r : Vector3)
    (vr tr vi ti : ℝ)
    (hre : dq (fun a b => real_func a b s.integrand r.y r.z)
      0 (2 * Real.pi) 0 (Real.pi / 2) = Except.ok (vr, tr))
    (him : dq (fun a b => imag_func a b s.integrand r.y r.z)
      0 (2 * Real.pi) 0 (Real.pi / 2) = Except.ok (vi, ti)) :
    complex_dblquad dq s.integrand 0 (2 * Real.pi) 0 (Real.pi / 2) r.y r.z =
      Except.ok ((vr : ℂ) + Complex.I * (vi : ℂ), tr, ti) ∧
    complex_dblquadCount dq s.integrand 0 (2 * Real.pi) 0 (Real.pi / 2) r.y r.z =
      (Except.ok ((vr : ℂ) + Complex.I * (vi : ℂ), tr, ti), 2) ∧
    s.callCount dq r = (Except.ok (((s.k : ℂ)) ^ 2 * ((vr : ℂ) + Complex.I * (vi : ℂ))), 2) := by
  unfold PsiSpherical.callCount complex_dblquad complex_dblquadCount
  rw [hre, him]
  exact ⟨rfl, rfl, rfl⟩

/-- Witness for C7: the example object of `main()` with the trivial
quadrature primitive. -/
theorem complex_dblquad_spec_witness :
    dqZero (fun a b =>
        real_func a b (PsiSpherical.init (-2.15) exampleParams).integrand 0.3 0.5)
      0 (2 * Real.pi) 0 (Real.pi / 2) = Except.ok (0, 0) ∧
    dqZero (fun a b =>
        imag_func a b (PsiSpherical.init (-2.15) exampleParams).integrand 0.3 0.5)
      0 (2 * Real.pi) 0 (Real.pi / 2) = Except.ok (0, 0) ∧
    (PsiSpherical.init (-2.15) exampleParams).callCount dqZero (Vector3.mk 0 0.3 0.5) =
      (Except.ok ((((PsiSpherical.init (-2.15) exampleParams).k : ℝ) : ℂ) ^ 2 *
        ((0 : ℝ) + Complex.I * ((0 : ℝ) : ℂ))), 2) :=
  ⟨rfl, rfl,
    (complex_dblquad_spec (PsiSpherical.init (-2.15) exampleParams) dqZero
      (Vector3.mk 0 0.3 0.5) 0 0 0 0 rfl rfl).2.2⟩

/-- C1: for a `PsiSpherical` built from shift `x` and parameters `p`, the
amplitude at `r` is `k^2` times the complex quadrature of the integrand
`sin(theta)*cos(theta)*f(sin(theta),theta,phi,p)*exp(i*phase)`, whose real
and imaginary parts are handed to the quadrature primitive with outer
(`phi`) bounds `0, 2*pi` and inner (`theta`) bounds `0, pi/2`, where `f` is
the spectrum model selected at construction and the phase is
`k*(sin(theta)*(r.y*sin(phi) - r.z*cos(phi)) + cos(theta)*x)`. -/
theorem call_spec (x : ℝ) (p : Params) (dq : QuadPrim) (r : Vector3)
    (vr tr vi ti : ℝ)
    (hre : dq (fun theta phi =>
        (((Real.sin theta : ℝ) : ℂ) * ((Real.cos theta : ℝ) : ℂ) *
          (PsiSpherical.init x p).f (Real.sin theta) theta phi p *
          Complex.exp (Complex.I *
            ((p.k * (Real.sin theta * (r.y * Real.sin phi - r.z * Real.cos phi) +
              Real.cos theta * x) : ℝ) : ℂ))).re)
      0 (2 * Real.pi) 0 (Real.pi / 2) = Except.ok (vr, tr))
    (him : dq (fun theta phi =>
        (((Real.sin theta : ℝ) : ℂ) * ((Real.cos theta : ℝ) : ℂ) *
          (PsiSpherical.init x p).f (Real.sin theta) theta phi p *
          Complex.exp (Complex.I *
            ((p.k * (Real.sin theta * (r.y * Real.sin phi - r.z * Real.cos phi) +
              Real.cos theta * x) : ℝ) : ℂ))).im)
      0 (2 * Real.pi) 0 (Real.pi / 2) = Except.ok (vi, ti)) :
    (PsiSpherical.init x p).call dq r =
      Except.ok (((p.k : ℝ) : ℂ) ^ 2 * ((vr : ℂ) + Complex.I * (vi : ℂ))) := by
  have h1 : dq (fun a b => real_func a b (PsiSpherical.init x p).integrand r.y r.z)
      0 (2 * Real.pi) 0 (Real.pi / 2) = Except.ok (vr, tr) := hre
  have h2 : dq (fun a b => imag_func a b (PsiSpherical.init x p).integrand r.y r.z)
      0 (2 * Real.pi) 0 (Real.pi / 2) = Except.ok (vi, ti) := him
  unfold PsiSpherical.call complex_dblquad
  rw [h1, h2]
  rfl

/-- Witness for C1: the example configuration of `main()` with the trivial
quadrature primitive. -/
theorem call_spec_witness :
    dqZero (fun theta phi =>
        (((Real.sin theta : ℝ) : ℂ) * ((Real.cos theta : ℝ) : ℂ) *
          (PsiSpherical.init (-2.15) exampleParams).f (Real.sin theta) theta phi
            exampleParams *
          Complex.exp (Complex.I *
            ((exampleParams.k * (Real.sin theta *
              ((Vector3.mk 0 0.3 0.5).y * Real.sin phi -
                (Vector3.mk 0 0.3 0.5).z * Real.cos phi) +
              Real.cos theta * (-2.15)) : ℝ) : ℂ))).re)
      0 (2 * Real.pi) 0 (Real.pi / 2) = Except.ok (0, 0) ∧
    (PsiSpherical.init (-2.15) exampleParams).call dqZero (Vector3.mk 0 0.3 0.5) =
      Except.ok (((exampleParams.k : ℝ) : ℂ) ^ 2 *
        (((0 : ℝ) : ℂ) + Complex.I * ((0 : ℝ) : ℂ))) :=
  ⟨rfl, call_spec (-2.15) exampleParams dqZero (Vector3.mk 0 0.3 0.5) 0 0 0 0 rfl rfl⟩

/-- C2: if the real-part quadrature raises, or the real-part quadrature
succeeds and the imaginary-part quadrature raises, the amplitude evaluation
produces no value and surfaces exactly the raised exception (its type name
and message) to the caller — modelling the reference's diagnostic print plus
process termination; and any successful amplitude evaluation required both
partial quadratures to succeed, so no partial or degraded result is ever
returned. -/
theorem call_error_spec (s : PsiSpherical) (dq : QuadPrim) (r : Vector3)
    (e : PyException) (vr tr : ℝ) :
    (dq (fun a b => real_func a b s.integrand r.y r.z)
        0 (2 * Real.pi) 0 (Real.pi / 2) = Except.error e →
      s.call dq r = Except.error e) ∧
    (dq (fun a b => real_func a b s.integrand r.y r.z)
        0 (2 * Real.pi) 0 (Real.pi / 2) = Except.ok (vr, tr) →
      dq (fun a b => imag_func a b s.integrand r.y r.z)
        0 (2 * Real.pi) 0 (Real.pi / 2) = Except.error e →
      s.call dq r = Except.error e) ∧
    (∀ c : ℂ, s.call dq r = Except.ok c →
      (∃ v t, dq (fun a b => real_func a b s.integrand r.y r.z)
        0 (2 * Real.pi) 0 (Real.pi / 2) = Except.ok (v, t)) ∧
      (∃ v t, dq (fun a b => imag_func a b s.integrand r.y r.z)
        0 (2 * Real.pi) 0 (Real.pi / 2) = Except.ok (v, t))) := by
  refine ⟨?_, ?_, ?_⟩
  · intro h1
    unfold PsiSpherical.call complex_dblquad
    rw [h1]
  · intro h1 h2
    unfold PsiSpherical.call complex_dblquad
    rw [h1, h2]
  · intro c hc
    unfold PsiSpherical.call complex_dblquad at hc
    rcases h1 : dq (fun a b => real_func a b s.integrand r.y r.z)
        0 (2 * Real.pi) 0 (Real.pi / 2) with e1 | ⟨w1, t1⟩
    · rw [h1] at hc
      exact absurd hc (by simp)
    · rcases h2 : dq (fun a b => imag_func a b s.integrand r.y r.z)
          0 (2 * Real.pi) 0 (Real.pi / 2) with e2 | ⟨w2, t2⟩
      · rw [h1, h2] at hc
        exact absurd hc (by simp)
      · exact ⟨⟨w1, t1, rfl⟩, ⟨w2, t2, rfl⟩⟩

/-- Witness for C2: a quadrature primitive that always raises makes the
amplitude evaluation of the example object fail with that exception. -/
theorem call_error_spec_witness :
    dqFail (fun a b =>
        real_func a b (PsiSpherical.init (-2.15) exampleParams).integrand 0.3 0.5)
      0 (2 * Real.pi) 0 (Real.pi / 2) =
      Except.error (PyException.mk "ValueError" "quadrature failed") ∧
    (PsiSpherical.init (-2.15) exampleParams).call dqFail (Vector3.mk 0 0.3 0.5) =
      Except.error (PyException.mk "ValueError" "quadrature failed") :=
  ⟨rfl,
    (call_error_spec (PsiSpherical.init (-2.15) exampleParams) dqFail
      (Vector3.mk 0 0.3 0.5) (PyException.mk "ValueError" "quadrature failed") 0 0).1 rfl⟩

/-- C8: the spectrum model is selected exactly once, at construction, by
inspecting the order `m` (`m = 0` selects the Gaussian spectrum, any other
`m` the Laguerre-Gauss spectrum); construction stores exactly the given
shift and parameters (and the cached `k` and `m`); an amplitude call leaves
the object state unchanged; and the amplitude evaluation never re-inspects
the beam type: two objects agreeing on `x`, `params`, `k` and the selected
`f` — whatever their `m` fields — produce identical amplitude results. -/
theorem init_selection_spec (x : ℝ) (p : Params) (s1 s2 : PsiSpherical)
    (hx : s1.x = s2.x) (hp : s1.params = s2.params) (hk : s1.k = s2.k)
    (hf : s1.f = s2.f) (dq : QuadPrim) (r : Vector3) :
    (PsiSpherical.init x p).f =
      (if p.m = 0 then
        (fun sin_theta theta phi q => ((f_Gauss_spherical sin_theta theta phi q : ℝ) : ℂ))
      else f_Laguerre_Gauss_spherical) ∧
    (PsiSpherical.init x p).x = x ∧
    (PsiSpherical.init x p).params = p ∧
    (PsiSpherical.init x p).k = p.k ∧
    (PsiSpherical.init x p).m = p.m ∧
    (s1.callS dq r).2 = s1 ∧
    s1.call dq r = s2.call dq r := by
  refine ⟨rfl, rfl, rfl, rfl, rfl, rfl, ?_⟩
  cases s1
  cases s2
  cases hx
  cases hp
  cases hk
  cases hf
  rfl

/-- Witness for C8: two concrete objects differing only in the cached `m`
field evaluate identically under the trivial quadrature primitive. -/
theorem init_selection_spec_witness :
    (PsiSpherical.mk 1 (Params.mk 1 2 3) 2 3 f_Laguerre_Gauss_spherical).x =
      (PsiSpherical.mk 1 (Params.mk 1 2 3) 2 7 f_Laguerre_Gauss_spherical).x ∧
    (PsiSpherical.init (-2.15) exampleParams).f =
      (if exampleParams.m = 0 then
        (fun sin_theta theta phi q => ((f_Gauss_spherical sin_theta theta phi q : ℝ) : ℂ))
      else f_Laguerre_Gauss_spherical) ∧
    (PsiSpherical.mk 1 (Params.mk 1 2 3) 2 3 f_Laguerre_Gauss_spherical).call dqZero
        (Vector3.mk 0 0.3 0.5) =
      (PsiSpherical.mk 1 (Params.mk 1 2 3) 2 7 f_Laguerre_Gauss_spherical).call dqZero
        (Vector3.mk 0 0.3 0.5) := by
  have h := init_selection_spec (-2.15) exampleParams
    (PsiSpherical.mk 1 (Params.mk 1 2 3) 2 3 f_Laguerre_Gauss_spherical)
    (PsiSpherical.mk 1 (Params.mk 1 2 3) 2 7 f_Laguerre_Gauss_spherical)
    rfl rfl rfl rfl dqZero (Vector3.mk 0 0.3 0.5)
  exact ⟨rfl, h.1, h.2.2.2.2.2.2⟩

/-- C9: amplitude evaluation mutates nothing — the object state after a call
is the state before it — and two successive calls with the identical point
(the second made from the post-call state) return identical results. -/
theorem call_deterministic (s : PsiSpherical) (dq : QuadPrim) (r : Vector3) :
    (s.callS dq r).2 = s ∧
    (((s.callS dq r).2).callS dq r).1 = (s.callS dq r).1 ∧
    s.call dq r = s.call dq r :=
  ⟨rfl, rfl, rfl⟩

/-- C10: the amplitude evaluation never reads the x-component of the
evaluation point — only its y- and z-components (together with the
constructor-supplied shift) enter — so two points agreeing on y and z give
identical amplitudes whatever their x-components. -/
theorem call_ignores_point_x (s : PsiSpherical) (dq : QuadPrim) (r r' : Vector3)
    (hy : r.y = r'.y) (hz : r.z = r'.z) :
    s.call dq r = s.call dq r' := by
  cases r
  cases r'
  cases hy
  cases hz
  rfl

/-- Witness for C10: two points sharing `y = 0.3`, `z = 0.5` but with
x-components `1` and `-7`. -/
theorem call_ignores_point_x_witness :
    (Vector3.mk 1 0.3 0.5).y = (Vector3.mk (-7) 0.3 0.5).y ∧
    (Vector3.mk 1 0.3 0.5).z = (Vector3.mk (-7) 0.3 0.5).z ∧
    (PsiSpherical.init (-2.15) exampleParams).call dqZero (Vector3.mk 1 0.3 0.5) =
      (PsiSpherical.init (-2.15) exampleParams).call dqZero (Vector3.mk (-7) 0.3 0.5) :=
  ⟨rfl, rfl,
    call_ignores_point_x (PsiSpherical.init (-2.15) exampleParams) dqZero
      (Vector3.mk 1 0.3 0.5) (Vector3.mk (-7) 0.3 0.5) rfl rfl⟩

end Beamprofile
